import Mathlib

/-!
Shallow embedding of the sam-weather-agent repository
(`src/weather_agent/services/weather_service.py`, `src/weather_agent/tools.py`,
`src/weather_agent/lifecycle.py`) and verification of its specification claims.

Conventions:
* Python floats (temperatures, wind speed, probability of precipitation) are
  modelled as rationals `ℚ`; no claim under verification depends on
  floating-point rounding.
* Epoch timestamps are natural numbers of seconds.  `datetime.fromtimestamp`
  uses the host local timezone; we model the derived calendar date as
  `dt / 86400` and the local hour as `dt % 86400 / 3600` (a fixed zero
  offset).  Every claim is invariant under the choice of a fixed offset.
  The ISO rendering of timestamps (`.isoformat()`, `strftime`) is presentation
  text no claim inspects; dates are kept as day numbers.
* Python dictionaries returned by the tools are modelled as structures whose
  optional fields are `Option`-valued; a raised exception becomes an
  `Except.error` value.
-/

/-- One 3-hour-interval forecast entry from the upstream API: the fields of
`item` read by `_format_forecast_data` and `_aggregate_daily_forecast`
(`item["dt"]`, `item["main"]["temp"]`, `item["main"]["humidity"]`,
`item["weather"][0]["description"]`, `item.get("wind",{}).get("speed",0)`,
`item.get("pop", 0)`). -/
structure RawSample where
  dt : Nat
  temp : ℚ
  humidity : Nat
  description : String
  wind_speed : Option ℚ
  pop : Option ℚ
deriving DecidableEq

/-- Calendar date of a sample: `datetime.fromtimestamp(item["dt"]).date()`. -/
def sdate (x : RawSample) : Nat := x.dt / 86400

/-- Local hour of a sample: `datetime.fromtimestamp(item["dt"]).hour`. -/
def shour (x : RawSample) : Nat := x.dt % 86400 / 3600

/-- The sort key of `_aggregate_daily_forecast`:
`abs(datetime.fromtimestamp(x["dt"]).hour - 12)`. -/
def noonKey (x : RawSample) : Nat := ((shour x : Int) - 12).natAbs

/-- Python's `min(iterable, key=k)` on a non-empty list `x :: xs`: the first
element attaining the minimal key (ties keep the earlier element, as CPython
replaces the current minimum only on a strictly smaller key). -/
def pyMinBy {α : Type} (key : α → Nat) (x : α) (xs : List α) : α :=
  xs.foldl (fun best y => if key y < key best then y else best) x

/-- Python's `min(t :: ts)` over numbers. -/
def pyListMin (t : ℚ) (ts : List ℚ) : ℚ := ts.foldl min t

/-- Python's `max(t :: ts)` over numbers. -/
def pyListMax (t : ℚ) (ts : List ℚ) : ℚ := ts.foldl max t

/-- Python's `str.title()` (ASCII behaviour): the first letter of every
alphabetic run is uppercased, the following letters lowercased. -/
def pyTitleGo : Bool → List Char → List Char
  | _, [] => []
  | prevAlpha, c :: cs =>
    if c.isAlpha then
      (if prevAlpha then c.toLower else c.toUpper) :: pyTitleGo true cs
    else
      c :: pyTitleGo false cs

/-- `s.title()` on a whole string. -/
def pyTitle (s : String) : String := String.mk (pyTitleGo false s.data)

/-- One aggregated day, the dictionary built by `_aggregate_daily_forecast`
(`date` kept as a day number, see the module comment). -/
structure DailyForecast where
  date : Nat
  temperature_min : ℚ
  temperature_max : ℚ
  description : String
  humidity : Nat
  wind_speed : ℚ
  precipitation_probability : ℚ
deriving DecidableEq

/-- `WeatherService._aggregate_daily_forecast(daily_data)`: `none` models the
empty-input branch (`if not daily_data: return {}`); on `x :: xs` the record is
built from `min`/`max` of the temperatures and the sample closest to noon. -/
def aggregate_daily_forecast : List RawSample → Option DailyForecast
  | [] => none
  | x :: xs =>
    let noon_forecast := pyMinBy noonKey x xs
    some {
      date := sdate x
      temperature_min := pyListMin x.temp (xs.map RawSample.temp)
      temperature_max := pyListMax x.temp (xs.map RawSample.temp)
      description := pyTitle noon_forecast.description
      humidity := noon_forecast.humidity
      wind_speed := noon_forecast.wind_speed.getD 0
      precipitation_probability := noon_forecast.pop.getD 0 * 100 }

/-- The grouping loop of `_format_forecast_data`: state `current_date`
(`none` initially), the growing same-date group `daily_data`, and the
accumulated `forecasts`.  A group is flushed whenever the calendar date
changes, and once more after the loop (`if daily_data: forecasts.append(...)`;
flushing an empty group appends nothing, which `Option.toList` models). -/
def forecastLoop : List RawSample → Option Nat → List RawSample →
    List DailyForecast → List DailyForecast
  | [], _, daily_data, forecasts =>
    forecasts ++ (aggregate_daily_forecast daily_data).toList
  | item :: rest, current_date, daily_data, forecasts =>
    if current_date = some (sdate item) then
      forecastLoop rest current_date (daily_data ++ [item]) forecasts
    else
      forecastLoop rest (some (sdate item)) [item]
        (forecasts ++ (aggregate_daily_forecast daily_data).toList)

/-- The forecast payload fields read by `_format_forecast_data`:
`data["city"]["name"]`, `data["city"]["country"]` and `data["list"]`. -/
structure ForecastRaw where
  city_name : String
  city_country : String
  list : List RawSample
deriving DecidableEq

/-- The dictionary `_format_forecast_data` returns. -/
structure ForecastResult where
  location : String
  forecasts : List DailyForecast
deriving DecidableEq

/-- `WeatherService._format_forecast_data(data, days)`: iterate over
`data["list"][:days * 8]` grouping by calendar date, then truncate
`forecasts[:days]`. -/
def format_forecast_data (data : ForecastRaw) (days : Nat) : ForecastResult :=
  { location := data.city_name ++ ", " ++ data.city_country
    forecasts := (forecastLoop (data.list.take (days * 8)) none [] []).take days }

/-- Proof-side restructuring of the grouping loop: the maximal runs of
adjacent same-date samples, starting from a partial run `daily_data` whose
samples have date `d`. -/
def dayRuns : Nat → List RawSample → List RawSample → List (List RawSample)
  | _, daily_data, [] => [daily_data]
  | d, daily_data, x :: xs =>
    if d = sdate x then dayRuns d (daily_data ++ [x]) xs
    else daily_data :: dayRuns (sdate x) [x] xs

/-- The maximal adjacent same-date runs of a sample list. -/
def dateGroups : List RawSample → List (List RawSample)
  | [] => []
  | x :: xs => dayRuns (sdate x) [x] xs

theorem forecastLoop_eq_dayRuns (l : List RawSample) :
    ∀ (d : Nat) (daily : List RawSample) (acc : List DailyForecast),
      forecastLoop l (some d) daily acc =
        acc ++ (dayRuns d daily l).filterMap aggregate_daily_forecast := by
  induction l with
  | nil =>
    intro d daily acc
    simp only [forecastLoop, dayRuns, List.filterMap_cons, List.filterMap_nil]
    cases hagg : aggregate_daily_forecast daily <;> simp
  | cons x xs ih =>
    intro d daily acc
    by_cases h : d = sdate x
    · simp only [forecastLoop, dayRuns, h, if_pos rfl]
      exact ih (sdate x) (daily ++ [x]) acc
    · have hne : ¬ (some d = some (sdate x)) := by simpa using h
      simp only [forecastLoop, dayRuns, if_neg hne, if_neg h]
      rw [ih (sdate x) [x] _, List.filterMap_cons]
      cases hagg : aggregate_daily_forecast daily <;> simp [List.append_assoc]

theorem forecastLoop_eq_dateGroups (l : List RawSample) :
    forecastLoop l none [] [] =
      (dateGroups l).filterMap aggregate_daily_forecast := by
  cases l with
  | nil => simp [forecastLoop, dateGroups, aggregate_daily_forecast]
  | cons x xs =>
    have : ¬ ((none : Option Nat) = some (sdate x)) := by simp
    simp only [forecastLoop, dateGroups, if_neg this, aggregate_daily_forecast,
      Option.toList, List.append_nil, List.nil_append]
    exact forecastLoop_eq_dayRuns xs (sdate x) [x] []

theorem aggregate_head_date (y : RawSample) (ys : List RawSample) :
    ∃ r, aggregate_daily_forecast (y :: ys) = some r ∧ r.date = sdate y :=
  ⟨_, rfl, rfl⟩

theorem dayRuns_dates (l : List RawSample) :
    ∀ (d : Nat) (daily : List RawSample), daily ≠ [] →
      (∀ y ∈ daily, sdate y = d) →
      (d :: l.map sdate).Pairwise (· ≤ ·) →
      ((dayRuns d daily l).filterMap aggregate_daily_forecast).map
          DailyForecast.date = (d :: l.map sdate).dedup := by
  induction l with
  | nil =>
    intro d daily hne hdates _
    match daily, hne with
    | y :: ys, _ =>
      obtain ⟨r, hagg, hdate⟩ := aggregate_head_date y ys
      have hy : sdate y = d := hdates y (by simp)
      simp [dayRuns, List.filterMap_cons, hagg, hdate, hy]
  | cons x xs ih =>
    intro d daily hne hdates hpw
    rw [List.map_cons] at hpw
    rw [List.pairwise_cons] at hpw
    obtain ⟨hd_le, hpw'⟩ := hpw
    by_cases h : d = sdate x
    · have hstep : dayRuns d daily (x :: xs) = dayRuns d (daily ++ [x]) xs := by
        simp [dayRuns, h]
      have hdates' : ∀ y ∈ daily ++ [x], sdate y = d := by
        intro y hy
        rcases List.mem_append.mp hy with hy | hy
        · exact hdates y hy
        · simp at hy; subst hy; exact h.symm
      have hpw'' : (d :: xs.map sdate).Pairwise (· ≤ ·) := by
        rw [List.pairwise_cons]
        refine ⟨fun y hy => hd_le y (by simp [hy]), (List.pairwise_cons.mp hpw').2⟩
      have hmem : d ∈ (sdate x :: xs.map sdate) := by simp [h]
      rw [hstep, ih d (daily ++ [x]) (by simp) hdates' hpw'',
        List.map_cons, List.dedup_cons_of_mem hmem, ← h]
    · have hstep : dayRuns d daily (x :: xs) =
          daily :: dayRuns (sdate x) [x] xs := by
        simp [dayRuns, h]
      match daily, hne with
      | y :: ys, _ =>
        obtain ⟨r, hagg, hdate⟩ := aggregate_head_date y ys
        have hy : sdate y = d := hdates y (by simp)
        have hnotmem : d ∉ (sdate x :: xs.map sdate) := by
          intro hd
          rcases List.mem_cons.mp hd with hd | hd
          · exact h hd
          · have h1 : d ≤ sdate x := hd_le (sdate x) (by simp)
            have h2 : sdate x ≤ d := (List.pairwise_cons.mp hpw').1 d hd
            exact h (le_antisymm h1 h2)
        rw [hstep, List.filterMap_cons, hagg, List.map_cons, List.map_cons,
          List.dedup_cons_of_not_mem hnotmem,
          ih (sdate x) [x] (by simp) (by simp) hpw', hdate, hy]

theorem dayRuns_members (l : List RawSample) :
    ∀ (d : Nat) (daily : List RawSample), daily ≠ [] →
      (∀ y ∈ daily, sdate y = d) →
      ∀ r ∈ (dayRuns d daily l).filterMap aggregate_daily_forecast,
        ∃ run, run ≠ [] ∧ run <:+: (daily ++ l) ∧
          (∀ y ∈ run, sdate y = r.date) ∧
          aggregate_daily_forecast run = some r := by
  induction l with
  | nil =>
    intro d daily hne hdates r hr
    match daily, hne with
    | y :: ys, _ =>
      obtain ⟨r₀, hagg, hdate⟩ := aggregate_head_date y ys
      simp only [dayRuns, List.filterMap_cons, List.filterMap_nil, hagg] at hr
      simp only [List.mem_singleton] at hr
      subst hr
      have hy : sdate y = d := hdates y (by simp)
      exact ⟨y :: ys, by simp, by simp, fun z hz => by
        rw [hdates z hz, hdate, hy], hagg⟩
  | cons x xs ih =>
    intro d daily hne hdates r hr
    by_cases h : d = sdate x
    · rw [show dayRuns d daily (x :: xs) = dayRuns d (daily ++ [x]) xs by
        simp [dayRuns, h]] at hr
      have hdates' : ∀ y ∈ daily ++ [x], sdate y = d := by
        intro y hy
        rcases List.mem_append.mp hy with hy | hy
        · exact hdates y hy
        · simp at hy; subst hy; exact h.symm
      obtain ⟨run, h1, h2, h3, h4⟩ := ih d (daily ++ [x]) (by simp) hdates' r hr
      exact ⟨run, h1, by simpa [List.append_assoc] using h2, h3, h4⟩
    · rw [show dayRuns d daily (x :: xs) = daily :: dayRuns (sdate x) [x] xs by
        simp [dayRuns, h]] at hr
      match daily, hne with
      | y :: ys, _ =>
        obtain ⟨r₀, hagg, hdate⟩ := aggregate_head_date y ys
        rw [List.filterMap_cons, hagg] at hr
        rcases List.mem_cons.mp hr with hr | hr
        · subst hr
          have hy : sdate y = d := hdates y (by simp)
          exact ⟨y :: ys, by simp, ⟨[], x :: xs, by simp⟩, fun z hz => by
            rw [hdates z hz, hdate, hy], hagg⟩
        · obtain ⟨run, h1, h2, h3, h4⟩ := ih (sdate x) [x] (by simp) (by simp) r hr
          refine ⟨run, h1, ?_, h3, h4⟩
          have hsfx : (x :: xs) <:+ ((y :: ys) ++ (x :: xs)) := List.suffix_append _ _
          exact h2.trans (by simpa using hsfx.isInfix)

theorem dedup_pairwise_lt (l : List Nat) (h : l.Pairwise (· ≤ ·)) :
    l.dedup.Pairwise (· < ·) := by
  have h1 : l.dedup.Pairwise (· ≤ ·) := List.Pairwise.sublist (List.dedup_sublist l) h
  have h2 : l.dedup.Pairwise (· ≠ ·) := List.nodup_dedup l
  exact (h1.and h2).imp (fun hab => lt_of_le_of_ne hab.1 hab.2)

theorem length_le_eight_mul_dedup (l : List Nat) (h : ∀ d, l.count d ≤ 8) :
    l.length ≤ 8 * l.dedup.length := by
  have h1 : Finset.sum l.toFinset (fun a => l.count a) = l.length := by
    simpa using Multiset.toFinset_sum_count_eq (l : Multiset ℕ)
  have h2 : Finset.sum l.toFinset (fun a => l.count a) ≤ l.toFinset.card • 8 :=
    Finset.sum_le_card_nsmul _ _ 8 (fun x _ => h x)
  rw [h1, List.card_toFinset, smul_eq_mul] at h2
  omega

theorem dedup_length_take_le (l : List Nat) (n : Nat) :
    (l.take n).dedup.length ≤ l.dedup.length := by
  rw [← List.card_toFinset, ← List.card_toFinset]
  refine Finset.card_le_card ?_
  intro a ha
  rw [List.mem_toFinset] at ha ⊢
  exact List.mem_of_mem_take ha

/-- C1: for every non-empty, chronologically ordered list of raw forecast
samples spanning `D` distinct calendar dates with at most 8 samples per date,
`_format_forecast_data` produces exactly `min D days` daily records, with
strictly increasing (hence unique and chronological) calendar dates, each
built by `_aggregate_daily_forecast` from a non-empty contiguous run of
same-date samples of the input. -/
theorem c1_daily_aggregation (data : ForecastRaw) (days : Nat)
    (hne : data.list ≠ [])
    (hchron : data.list.Pairwise (fun a b => a.dt ≤ b.dt))
    (h8 : ∀ d : Nat, (data.list.map sdate).count d ≤ 8) :
    (format_forecast_data data days).forecasts.length =
      min ((data.list.map sdate).dedup.length) days ∧
    ((format_forecast_data data days).forecasts.map DailyForecast.date).Pairwise
      (· < ·) ∧
    ∀ r ∈ (format_forecast_data data days).forecasts,
      ∃ run, run ≠ [] ∧ run <:+: data.list ∧ (∀ y ∈ run, sdate y = r.date) ∧
        aggregate_daily_forecast run = some r := by
  have hout : (format_forecast_data data days).forecasts =
      ((dateGroups (data.list.take (days * 8))).filterMap
        aggregate_daily_forecast).take days := by
    simp [format_forecast_data, forecastLoop_eq_dateGroups]
  rcases hcons : data.list.take (days * 8) with _ | ⟨x, xs⟩
  · -- the slice is empty: since the sample list is non-empty, `days = 0`
    have hdays : days = 0 := by
      rcases List.take_eq_nil_iff.mp hcons with h | h
      · omega
      · exact absurd h hne
    subst hdays
    rw [hout, hcons]
    simp [dateGroups]
  · -- the slice is `x :: xs`
    have hslice_sub : List.Sublist (data.list.take (days * 8)) data.list :=
      List.take_sublist _ _
    have hchron_slice : (data.list.take (days * 8)).Pairwise
        (fun a b => a.dt ≤ b.dt) := List.Pairwise.sublist hslice_sub hchron
    have hdatepw : ((data.list.take (days * 8)).map sdate).Pairwise (· ≤ ·) :=
      List.Pairwise.map sdate (fun a b hab => Nat.div_le_div_right hab)
        hchron_slice
    rw [hcons] at hdatepw
    have hmap : ((dayRuns (sdate x) [x] xs).filterMap
          aggregate_daily_forecast).map DailyForecast.date =
        (sdate x :: xs.map sdate).dedup := by
      have := dayRuns_dates xs (sdate x) [x] (by simp) (by simp)
      rw [List.map_cons] at hdatepw
      exact this hdatepw
    have hlenpre : ((dayRuns (sdate x) [x] xs).filterMap
          aggregate_daily_forecast).length =
        ((data.list.take (days * 8)).map sdate).dedup.length := by
      have := congrArg List.length hmap
      rw [List.length_map] at this
      rw [this, hcons, List.map_cons]
    have hgroups : dateGroups (data.list.take (days * 8)) =
        dayRuns (sdate x) [x] xs := by rw [hcons]; rfl
    refine ⟨?_, ?_, ?_⟩
    · -- length = min D days
      rw [hout, hgroups, List.length_take, hlenpre]
      rcases le_or_lt data.list.length (days * 8) with hle | hlt
      · rw [List.take_of_length_le hle, inf_comm]
      · -- the slice holds exactly `days * 8` samples, so it spans ≥ `days` dates
        have hslice_len : (data.list.take (days * 8)).length = days * 8 := by
          rw [List.length_take]
          omega
        have hcount : ∀ d : Nat,
            ((data.list.take (days * 8)).map sdate).count d ≤ 8 := by
          intro d
          rw [List.map_take]
          exact le_trans
            (List.Sublist.count_le (List.take_sublist _ _) d) (h8 d)
        have hbound := length_le_eight_mul_dedup
          ((data.list.take (days * 8)).map sdate) hcount
        rw [List.length_map, hslice_len] at hbound
        have hDD : ((data.list.take (days * 8)).map sdate).dedup.length ≤
            ((data.list.map sdate).dedup).length := by
          rw [List.map_take]
          exact dedup_length_take_le _ _
        omega
    · -- strictly increasing dates
      rw [hout, hgroups, List.map_take, hmap]
      refine List.Pairwise.sublist (List.take_sublist _ _) ?_
      have hlt' := dedup_pairwise_lt (List.map sdate (x :: xs)) hdatepw
      rwa [List.map_cons] at hlt'
    · -- each record comes from a contiguous run of same-date samples
      intro r hr
      rw [hout, hgroups] at hr
      have hr' := List.mem_of_mem_take hr
      obtain ⟨run, h1, h2, h3, h4⟩ :=
        dayRuns_members xs (sdate x) [x] (by simp) (by simp) r hr'
      refine ⟨run, h1, ?_, h3, h4⟩
      have : ([x] ++ xs) <:+: data.list := by
        rw [List.singleton_append, ← hcons]
        exact (List.take_prefix _ _).isInfix
      exact h2.trans this

theorem pyMinBy_first_argmin {α : Type} (key : α → Nat) :
    ∀ (xs : List α) (x : α),
      ∃ pre post,
        x :: xs = pre ++ pyMinBy key x xs :: post ∧
        (∀ y ∈ pre, key (pyMinBy key x xs) < key y) ∧
        (∀ y ∈ x :: xs, key (pyMinBy key x xs) ≤ key y) := by
  intro xs
  induction xs with
  | nil =>
    intro x
    exact ⟨[], [], rfl, by simp, by simp [pyMinBy]⟩
  | cons y ys ih =>
    intro x
    have hstep : pyMinBy key x (y :: ys) =
        pyMinBy key (if key y < key x then y else x) ys := rfl
    by_cases hy : key y < key x
    · obtain ⟨pre, post, heq, hpre, hall⟩ := ih y
      have hb : pyMinBy key x (y :: ys) = pyMinBy key y ys := by
        rw [hstep, if_pos hy]
      have hby : key (pyMinBy key y ys) ≤ key y := hall y (by simp)
      refine ⟨x :: pre, post, ?_, ?_, ?_⟩
      · rw [hb, List.cons_append, ← heq]
      · intro z hz
        rcases List.mem_cons.mp hz with hz | hz
        · subst hz; rw [hb]; exact lt_of_le_of_lt hby hy
        · rw [hb]; exact hpre z hz
      · intro z hz
        rcases List.mem_cons.mp hz with hz | hz
        · subst hz; rw [hb]; exact le_of_lt (lt_of_le_of_lt hby hy)
        · rw [hb]; exact hall z hz
    · obtain ⟨pre, post, heq, hpre, hall⟩ := ih x
      have hb : pyMinBy key x (y :: ys) = pyMinBy key x ys := by
        rw [hstep, if_neg hy]
      have hxy : key x ≤ key y := Nat.le_of_not_lt hy
      cases pre with
      | nil =>
        have hx : x = pyMinBy key x ys := by
          have := heq
          rw [List.nil_append] at this
          exact (List.cons.injEq _ _ _ _).mp this |>.1
        have hpost : ys = post := by
          have := heq
          rw [List.nil_append] at this
          exact (List.cons.injEq _ _ _ _).mp this |>.2
        refine ⟨[], y :: post, ?_, by simp, ?_⟩
        · rw [List.nil_append, hb, ← hx, hpost]
        · intro z hz
          rcases List.mem_cons.mp hz with hz | hz
          · subst hz; rw [hb, ← hx]
          · rcases List.mem_cons.mp hz with hz' | hz'
            · subst hz'; rw [hb, ← hx]; exact hxy
            · rw [hb]; exact hall z (by simp [hz'])
      | cons a pre' =>
        have hax : a = x := by
          have := heq
          rw [List.cons_append] at this
          exact ((List.cons.injEq _ _ _ _).mp this).1.symm
        have hys : ys = pre' ++ pyMinBy key x ys :: post := by
          have := heq
          rw [List.cons_append] at this
          exact ((List.cons.injEq _ _ _ _).mp this).2
        have hbx : key (pyMinBy key x ys) < key x := by
          have := hpre a (by simp)
          rwa [hax] at this
        refine ⟨x :: y :: pre', post, ?_, ?_, ?_⟩
        · rw [hb, List.cons_append, List.cons_append, ← hys]
        · intro z hz
          rcases List.mem_cons.mp hz with hz | hz
          · subst hz; rw [hb]; exact hbx
          · rcases List.mem_cons.mp hz with hz' | hz'
            · subst hz'; rw [hb]; exact lt_of_lt_of_le hbx hxy
            · rw [hb]; exact hpre z (List.mem_cons_of_mem a hz')
        · intro z hz
          rcases List.mem_cons.mp hz with hz | hz
          · subst hz; rw [hb]; exact le_of_lt hbx
          · rcases List.mem_cons.mp hz with hz' | hz'
            · subst hz'; rw [hb]; exact le_of_lt (lt_of_lt_of_le hbx hxy)
            · rw [hb]; exact hall z (by simp [hz'])

/-- C2: the representative sample supplying description, humidity, wind and
precipitation of an aggregated day is the first sample of the group whose
hour minimizes `abs(hour - 12)`: it occurs in the group, every sample before
it has a strictly larger noon distance (so ties keep the earliest sample),
and no sample anywhere in the group has a smaller one. -/
theorem c2_noon_representative (x : RawSample) (xs : List RawSample)
    (r : DailyForecast) (h : aggregate_daily_forecast (x :: xs) = some r) :
    ∃ rep pre post,
      x :: xs = pre ++ rep :: post ∧
      (∀ y ∈ pre, noonKey rep < noonKey y) ∧
      (∀ y ∈ x :: xs, noonKey rep ≤ noonKey y) ∧
      r.description = pyTitle rep.description ∧
      r.humidity = rep.humidity ∧
      r.wind_speed = rep.wind_speed.getD 0 ∧
      r.precipitation_probability = rep.pop.getD 0 * 100 := by
  obtain ⟨pre, post, heq, hpre, hall⟩ := pyMinBy_first_argmin noonKey xs x
  have hr : r = {
      date := sdate x
      temperature_min := pyListMin x.temp (xs.map RawSample.temp)
      temperature_max := pyListMax x.temp (xs.map RawSample.temp)
      description := pyTitle (pyMinBy noonKey x xs).description
      humidity := (pyMinBy noonKey x xs).humidity
      wind_speed := (pyMinBy noonKey x xs).wind_speed.getD 0
      precipitation_probability := (pyMinBy noonKey x xs).pop.getD 0 * 100 } := by
    have := h.symm
    rwa [aggregate_daily_forecast, Option.some.injEq] at this
  exact ⟨pyMinBy noonKey x xs, pre, post, heq, hpre, hall,
    by rw [hr], by rw [hr], by rw [hr], by rw [hr]⟩

/-- C7: on the empty raw sample list the daily aggregation of
`_format_forecast_data` yields no daily records, and
`_aggregate_daily_forecast` yields its empty-dictionary marker.  Both are
total Lean functions translated branch-for-branch from the source, so no
exception can arise. -/
theorem c7_empty_samples (city country : String) (days : Nat) :
    (format_forecast_data ⟨city, country, []⟩ days).forecasts = [] ∧
    aggregate_daily_forecast [] = none := by
  constructor
  · simp [format_forecast_data, forecastLoop, aggregate_daily_forecast]
  · rfl

/-- The outcome of one HTTP GET as the service sees it: a decoded 200 body,
a 404, another non-200 status with the provider's optional message
(`error_data.get("message", "Unknown error")`), or a transport-level
`aiohttp.ClientError`. -/
inductive HttpOutcome (α : Type)
  | ok (body : α)
  | notFound
  | errorStatus (message : Option String)
  | network (message : String)
deriving DecidableEq

/-- A raised Python exception as discriminated at the tool boundary:
`ValueError` (caught first) or any other `Exception`. -/
inductive PyErr
  | valueError (msg : String)
  | exception (msg : String)
deriving DecidableEq

/-- The current-conditions payload fields read by `_format_current_weather`
(`.get`-accessed fields are `Option`-valued with the source's defaults). -/
structure CurrentRaw where
  name : String
  country : String
  temp : ℚ
  feels_like : ℚ
  humidity : Nat
  pressure : Nat
  description : String
  wind_speed : Option ℚ
  wind_deg : Option ℚ
  visibility : Option ℚ
  dt : Nat
  sunrise : Nat
  sunset : Nat
deriving DecidableEq

/-- The dictionary `_format_current_weather` returns (timestamps kept as
epoch seconds; their ISO rendering is presentation text no claim inspects). -/
structure CurrentWeather where
  location : String
  temperature : ℚ
  feels_like : ℚ
  humidity : Nat
  pressure : Nat
  description : String
  wind_speed : ℚ
  wind_direction : ℚ
  visibility : ℚ
  timestamp : Nat
  sunrise : Nat
  sunset : Nat
deriving DecidableEq

/-- `WeatherService._format_current_weather(data)`. -/
def format_current_weather (data : CurrentRaw) : CurrentWeather :=
  { location := data.name ++ ", " ++ data.country
    temperature := data.temp
    feels_like := data.feels_like
    humidity := data.humidity
    pressure := data.pressure
    description := pyTitle data.description
    wind_speed := data.wind_speed.getD 0
    wind_direction := data.wind_deg.getD 0
    visibility := data.visibility.getD 0 / 1000
    timestamp := data.dt
    sunrise := data.sunrise
    sunset := data.sunset }

/-- `WeatherService.get_current_weather(location, units)` as a function of
the HTTP outcome of the single GET it performs (`units` only affects the
request parameters, never the control flow).  HTTP 404 raises
`ValueError(f"Location X not found")` with the location quoted; any other
non-200 raises `Exception("Weather API error: ...")`;
`aiohttp.ClientError` is re-raised as `Exception("Network error: ...")`. -/
def WeatherService.get_current_weather (location units : String)
    (response : HttpOutcome CurrentRaw) : Except PyErr CurrentWeather :=
  match response with
  | .ok data => .ok (format_current_weather data)
  | .notFound => .error (.valueError ("Location '" ++ location ++ "' not found"))
  | .errorStatus message =>
    .error (.exception ("Weather API error: " ++ message.getD "Unknown error"))
  | .network msg => .error (.exception ("Network error: " ++ msg))

/-- `WeatherService.get_weather_forecast(location, days, units)`: same error
taxonomy as the current-conditions request; a 200 body is normalized by
`_format_forecast_data`. -/
def WeatherService.get_weather_forecast (location : String) (days : Nat)
    (units : String) (response : HttpOutcome ForecastRaw) :
    Except PyErr ForecastResult :=
  match response with
  | .ok data => .ok (format_forecast_data data days)
  | .notFound => .error (.valueError ("Location '" ++ location ++ "' not found"))
  | .errorStatus message =>
    .error (.exception ("Weather API error: " ++ message.getD "Unknown error"))
  | .network msg => .error (.exception ("Network error: " ++ msg))

/-- A value in the host component's per-agent key-value state: the three
kinds of values the agent ever stores (`weather_service`, `initialized_at`,
`weather_requests_count`). -/
inductive StateValue
  | natVal (n : Nat)
  | strVal (s : String)
  | serviceVal (api_key base_url : String)
deriving DecidableEq

/-- The per-agent key-value store.  `set_agent_specific_state` prepends a
binding and `get_agent_specific_state` reads the most recent one, modelling
overwriting writes. -/
abbrev Store := List (String × StateValue)

/-- `host_component.set_agent_specific_state(key, value)`. -/
def setState (store : Store) (key : String) (v : StateValue) : Store :=
  (key, v) :: store

/-- `host_component.get_agent_specific_state(key)` without a default. -/
def getState (store : Store) (key : String) : Option StateValue :=
  (store.find? (fun p => p.1 == key)).map (fun p => p.2)

/-- The host component reached through
`tool_context._invocation_context.agent.host_component`. -/
structure HostComponent where
  store : Store
deriving DecidableEq

/-- `invocation_context.agent`: holds an optional `host_component`
attribute (`getattr(..., "host_component", None)`). -/
structure AgentRef where
  host_component : Option HostComponent
deriving DecidableEq

/-- `tool_context._invocation_context`: only the `agent` attribute chain the
tools traverse is modelled (`getattr(..., "agent", None)`). -/
structure ToolCtx where
  agent : Option AgentRef
deriving DecidableEq

/-- The outcome of `save_artifact_with_metadata`: a result dictionary whose
optional `status` the caller reads with `result.get("status", "success")`,
or a raised exception. -/
inductive SaveOutcome
  | ok (status : Option String)
  | raised (msg : String)
deriving DecidableEq

/-- The dictionary `_save_weather_artifact` returns: `{filename, status}` on
the happy path, `{status: "error", message}` when saving raised. -/
structure ArtifactResult where
  status : String
  message : Option String
  filename : Option String
deriving DecidableEq

/-- `_save_weather_artifact(weather_data, filename_base, tool_context)`:
its `try` block builds `f"{filename_base}_{timestamp}.json"` and calls the
artifact service; every exception is caught and turned into an error
dictionary. -/
def save_weather_artifact (filename_base : String) (nowStamp : String)
    (outcome : SaveOutcome) : ArtifactResult :=
  match outcome with
  | .ok status =>
    { status := status.getD "success", message := none
      filename := some (filename_base ++ "_" ++ nowStamp ++ ".json") }
  | .raised m =>
    { status := "error", message := some ("Failed to save artifact: " ++ m)
      filename := none }

/-- `_create_weather_summary(weather_data)`: hard-codes `temp_unit = "°C"`
(source comment: "Assuming metric units for summary").  Numbers are rendered
with `toString` in place of Python float formatting; no claim inspects the
digits. -/
def create_weather_summary (weather_data : CurrentWeather) : String :=
  let temp_unit := "°C"
  "Current weather in " ++ weather_data.location ++ ":\n" ++
    "• Temperature: " ++ toString weather_data.temperature ++ temp_unit ++
    " (feels like " ++ toString weather_data.feels_like ++ temp_unit ++ ")\n" ++
    "• Conditions: " ++ weather_data.description ++ "\n" ++
    "• Humidity: " ++ toString weather_data.humidity ++ "%\n" ++
    "• Wind: " ++ toString weather_data.wind_speed ++ " m/s\n" ++
    "• Visibility: " ++ toString weather_data.visibility ++ " km"

/-- One day's lines in `_create_forecast_summary`.  The
`strftime("%A, %B %d")` rendering of the date is presentation text no claim
inspects; the day number stands in for it.  The precipitation line is
emitted only when the probability is positive. -/
def forecast_day_lines (forecast : DailyForecast) : String :=
  "• " ++ toString forecast.date ++ ": " ++ forecast.description ++ "\n" ++
    "  High: " ++ toString forecast.temperature_max ++ "°C, Low: " ++
    toString forecast.temperature_min ++ "°C\n" ++
    (if forecast.precipitation_probability > 0 then
      "  Precipitation: " ++ toString forecast.precipitation_probability ++
        "% chance\n"
    else "") ++ "\n"

/-- `_create_forecast_summary(forecast_data)` (`.strip()` is `String.trim`). -/
def create_forecast_summary (forecast_data : ForecastResult) : String :=
  (("Weather forecast for " ++ forecast_data.location ++ ":\n\n") ++
    String.join (forecast_data.forecasts.map forecast_day_lines)).trim

/-- Everything outside the `get_current_weather` tool that determines one
call's run: the context object handed in, the HTTP outcome of the (at most
one) service request, the artifact-save outcome, and the UTC timestamp
string used in the artifact filename. -/
structure CurrentCallEnv where
  tool_context : Option ToolCtx
  response : HttpOutcome CurrentRaw
  saveOutcome : SaveOutcome
  nowStamp : String
deriving DecidableEq

/-- The same call environment for the `get_weather_forecast` tool. -/
structure ForecastCallEnv where
  tool_context : Option ToolCtx
  response : HttpOutcome ForecastRaw
  saveOutcome : SaveOutcome
  nowStamp : String
deriving DecidableEq

/-- The dictionary returned by the `get_current_weather` tool. -/
structure CurrentToolResult where
  status : String
  message : Option String
  location : Option String
  summary : Option String
  data : Option CurrentWeather
  artifact : Option ArtifactResult
deriving DecidableEq

/-- An error dictionary of the current-weather tool. -/
def currentError (m : String) : CurrentToolResult :=
  { status := "error", message := some m, location := none, summary := none
    data := none, artifact := none }

/-- The dictionary returned by the `get_weather_forecast` tool. -/
structure ForecastToolResult where
  status : String
  message : Option String
  location : Option String
  summary : Option String
  data : Option ForecastResult
  artifact : Option ArtifactResult
deriving DecidableEq

/-- An error dictionary of the forecast tool. -/
def forecastError (m : String) : ForecastToolResult :=
  { status := "error", message := some m, location := none, summary := none
    data := none, artifact := none }

/-- The `get_current_weather` tool (`tools.py`).  Branches in source order:
missing `tool_context`; unreachable host component
(`getattr(...agent) / getattr(...host_component)` chain, modelled by
`Option.bind`); falsy `weather_service` state (the key is only ever written
by `initialize_weather_agent`, always with the service, so a non-service
value is folded into this branch); then the `try` block whose `except
ValueError`/`except Exception` handlers wrap the service's errors. -/
def get_current_weather (location units : String) (save_to_file : Bool)
    (env : CurrentCallEnv) : CurrentToolResult :=
  match env.tool_context with
  | none => currentError "Tool context is required for weather operations"
  | some tool_context =>
    match tool_context.agent.bind AgentRef.host_component with
    | none => currentError "Could not access agent host component"
    | some host_component =>
      match getState host_component.store "weather_service" with
      | some (.serviceVal _ _) =>
        match WeatherService.get_current_weather location units env.response with
        | .ok weather_data =>
          { status := "success", message := none
            location := some weather_data.location
            summary := some (create_weather_summary weather_data)
            data := some weather_data
            artifact :=
              if save_to_file then
                some (save_weather_artifact ("current_weather_" ++ location)
                  env.nowStamp env.saveOutcome)
              else none }
        | .error (.valueError m) => currentError ("Location error: " ++ m)
        | .error (.exception m) => currentError ("Weather service error: " ++ m)
      | _ => currentError "Weather service not initialized"

/-- The `get_weather_forecast` tool (`tools.py`).  Same boundary as the
current-weather tool, with the `days` validation
(`if not 1 <= days <= 5`) placed after the context check and before the
host-component and service lookups and the network request. -/
def get_weather_forecast (location : String) (days : Int) (units : String)
    (save_to_file : Bool) (env : ForecastCallEnv) : ForecastToolResult :=
  match env.tool_context with
  | none => forecastError "Tool context is required for weather operations"
  | some tool_context =>
    if ¬ (1 ≤ days ∧ days ≤ 5) then
      forecastError "Days must be between 1 and 5"
    else
      match tool_context.agent.bind AgentRef.host_component with
      | none => forecastError "Could not access agent host component"
      | some host_component =>
        match getState host_component.store "weather_service" with
        | some (.serviceVal _ _) =>
          match WeatherService.get_weather_forecast location days.toNat units
              env.response with
          | .ok forecast_data =>
            { status := "success", message := none
              location := some forecast_data.location
              summary := some (create_forecast_summary forecast_data)
              data := some forecast_data
              artifact :=
                if save_to_file then
                  some (save_weather_artifact
                    ("forecast_" ++ location ++ "_" ++ toString days ++ "day")
                    env.nowStamp env.saveOutcome)
                else none }
          | .error (.valueError m) => forecastError ("Location error: " ++ m)
          | .error (.exception m) => forecastError ("Weather service error: " ++ m)
        | _ => forecastError "Weather service not initialized"

/-- `WeatherAgentInitConfig` (the `SecretStr` key is modelled by the string
`get_secret_value()` reveals). -/
structure WeatherAgentInitConfig where
  api_key : String
  base_url : String
  startup_message : String
deriving DecidableEq

/-- `initialize_weather_agent(host_component, init_config)`: constructs the
service and performs its three `set_agent_specific_state` writes in source
order (`weather_service`, `initialized_at`, `weather_requests_count = 0`). -/
def initialize_weather_agent (store : Store)
    (init_config : WeatherAgentInitConfig) : Store :=
  setState (setState (setState store
    "weather_service"
    (.serviceVal init_config.api_key init_config.base_url))
    "initialized_at" (.strVal "2024-01-01T00:00:00Z"))
    "weather_requests_count" (.natVal 0)

/-- The final-statistics read `cleanup_weather_agent` performs:
`get_agent_specific_state("weather_requests_count", 0)`. -/
def cleanup_request_count (store : Store) : StateValue :=
  (getState store "weather_requests_count").getD (.natVal 0)

/-- The state of the lazily created `aiohttp.ClientSession`. -/
structure SessionState where
  closed : Bool
deriving DecidableEq

/-- The mutable state of a `WeatherService` instance: configuration plus the
optional HTTP session (`self.session`, initially `None`). -/
structure WeatherServiceState where
  api_key : String
  base_url : String
  session : Option SessionState
deriving DecidableEq

/-- `WeatherService._get_session()`: reuse the session unless it is missing
or closed, in which case a fresh open session is created and stored. -/
def WeatherService.get_session (st : WeatherServiceState) :
    SessionState × WeatherServiceState :=
  match st.session with
  | some s =>
    if s.closed then (⟨false⟩, { st with session := some ⟨false⟩ })
    else (s, st)
  | none => (⟨false⟩, { st with session := some ⟨false⟩ })

/-- `WeatherService.close()`: `if self.session and not self.session.closed:
await self.session.close()` — closing marks the session closed and is a
no-op otherwise; `self.session` is never reset to `None`. -/
def WeatherService.close (st : WeatherServiceState) : WeatherServiceState :=
  match st.session with
  | some s => if s.closed then st else { st with session := some ⟨true⟩ }
  | none => st

/-- One tool invocation with all its call-time inputs; the host store the
call sees is supplied by the runner. -/
inductive ToolCall
  | current (location units : String) (save_to_file : Bool)
      (response : HttpOutcome CurrentRaw) (saveOutcome : SaveOutcome)
      (nowStamp : String)
  | forecast (location : String) (days : Int) (units : String)
      (save_to_file : Bool) (response : HttpOutcome ForecastRaw)
      (saveOutcome : SaveOutcome) (nowStamp : String)

/-- A tool invocation's returned dictionary. -/
inductive ToolReturn
  | current (r : CurrentToolResult)
  | forecast (r : ForecastToolResult)

/-- Run one tool call against the current host store.  The tool functions in
`tools.py` only read the agent state (`get_agent_specific_state`); neither
contains a `set_agent_specific_state` call, so the store coming out is the
store that went in. -/
def runToolCall (store : Store) : ToolCall → Store × ToolReturn
  | .current location units save_to_file response saveOutcome nowStamp =>
    (store, .current (get_current_weather location units save_to_file
      { tool_context := some ⟨some ⟨some ⟨store⟩⟩⟩
        response := response, saveOutcome := saveOutcome
        nowStamp := nowStamp }))
  | .forecast location days units save_to_file response saveOutcome nowStamp =>
    (store, .forecast (get_weather_forecast location days units save_to_file
      { tool_context := some ⟨some ⟨some ⟨store⟩⟩⟩
        response := response, saveOutcome := saveOutcome
        nowStamp := nowStamp }))

/-- Thread the host store through a sequence of tool invocations. -/
def runToolCalls (store : Store) : List ToolCall → Store
  | [] => store
  | c :: cs => runToolCalls (runToolCall store c).1 cs

/-- C3: for every input and environment — covering missing context,
unreachable host component, uninitialized service, HTTP 404, other upstream
errors and transport errors — both tools return a dictionary that is either
a success result or an error result carrying a message.  The tools are
total Lean translations of the `try`/`except` bodies, so no exception can
reach the caller. -/
theorem c3_uniform_boundary (location units : String) (save_to_file : Bool)
    (days : Int) (envC : CurrentCallEnv) (envF : ForecastCallEnv) :
    ((get_current_weather location units save_to_file envC).status = "success" ∨
      ((get_current_weather location units save_to_file envC).status = "error" ∧
        ∃ m, (get_current_weather location units save_to_file envC).message =
          some m)) ∧
    ((get_weather_forecast location days units save_to_file envF).status =
        "success" ∨
      ((get_weather_forecast location days units save_to_file envF).status =
          "error" ∧
        ∃ m, (get_weather_forecast location days units save_to_file envF).message =
          some m)) := by
  constructor
  · unfold get_current_weather
    (repeat' split) <;> simp [currentError]
  · unfold get_weather_forecast
    (repeat' split) <;> simp [forecastError]

/-- C4: whenever `days` lies outside `[1, 5]`, `get_weather_forecast`
returns the validation-error dictionary.  The whole environment — the HTTP
outcome, the host store reached through the context, the artifact outcome —
is universally quantified and absent from the conclusion, so the rejection
happens before any network request or any access to the weather service. -/
theorem c4_days_validated_first (location units : String) (save_to_file : Bool)
    (days : Int) (env : ForecastCallEnv) (ctx : ToolCtx)
    (hctx : env.tool_context = some ctx)
    (hdays : ¬ (1 ≤ days ∧ days ≤ 5)) :
    get_weather_forecast location days units save_to_file env =
      forecastError "Days must be between 1 and 5" := by
  unfold get_weather_forecast
  rw [hctx]
  simp [hdays]

theorem c4_days_validated_first_witness :
    (({ tool_context := some ⟨none⟩, response := HttpOutcome.notFound
        saveOutcome := .ok none, nowStamp := "t" } :
        ForecastCallEnv).tool_context = some ⟨none⟩ ∧
      ¬ ((1 : Int) ≤ 0 ∧ (0 : Int) ≤ 5)) ∧
    get_weather_forecast "Paris" 0 "metric" false
        { tool_context := some ⟨none⟩, response := HttpOutcome.notFound
          saveOutcome := .ok none, nowStamp := "t" } =
      forecastError "Days must be between 1 and 5" :=
  ⟨⟨rfl, by decide⟩,
    c4_days_validated_first "Paris" "metric" false 0 _ ⟨none⟩ rfl (by decide)⟩

theorem string_append_ne_of_head (a b x y : String)
    (h : a.data.head? ≠ b.data.head?) (ha : a.data ≠ []) (hb : b.data ≠ []) :
    a ++ x ≠ b ++ y := by
  intro he
  have hd := congrArg String.data he
  rw [String.data_append, String.data_append] at hd
  match hca : a.data, hcb : b.data, ha, hb with
  | ca :: ta, cb :: tb, _, _ =>
    rw [hca, hcb] at hd h
    simp only [List.cons_append, List.cons.injEq] at hd
    exact h (by simp [hd.1])

/-- C5: on an HTTP 404 the service raises
`ValueError(f"Location X not found")` carrying the input location, and the
tool boundary's `except ValueError` arm converts it to a "Location error"
result; the message can never coincide with any generic
"Weather service error" message produced by the `except Exception` arm. -/
theorem c5_404_location_error (location units : String) (save_to_file : Bool)
    (env : CurrentCallEnv) (store : Store) (k u : String)
    (hctx : env.tool_context = some ⟨some ⟨some ⟨store⟩⟩⟩)
    (hsvc : getState store "weather_service" =
      some (StateValue.serviceVal k u))
    (h404 : env.response = HttpOutcome.notFound) :
    get_current_weather location units save_to_file env =
      currentError ("Location error: " ++
        ("Location '" ++ location ++ "' not found")) ∧
    ∀ m : String,
      ("Location error: " ++ ("Location '" ++ location ++ "' not found")) ≠
        "Weather service error: " ++ m := by
  constructor
  · unfold get_current_weather
    rw [hctx]
    simp [hsvc, WeatherService.get_current_weather, h404]
  · intro m
    exact string_append_ne_of_head "Location error: " "Weather service error: "
      ("Location '" ++ location ++ "' not found") m (by decide) (by decide)
      (by decide)

theorem c5_404_location_error_witness :
    (({ tool_context :=
          some ⟨some ⟨some ⟨[("weather_service", StateValue.serviceVal "k" "u")]⟩⟩⟩
        response := HttpOutcome.notFound, saveOutcome := .ok none
        nowStamp := "t" } : CurrentCallEnv).tool_context =
        some ⟨some ⟨some ⟨[("weather_service", StateValue.serviceVal "k" "u")]⟩⟩⟩ ∧
      getState [("weather_service", StateValue.serviceVal "k" "u")]
        "weather_service" = some (StateValue.serviceVal "k" "u")) ∧
    (get_current_weather "Nowhereville" "metric" false
        { tool_context :=
            some ⟨some ⟨some ⟨[("weather_service", StateValue.serviceVal "k" "u")]⟩⟩⟩
          response := HttpOutcome.notFound, saveOutcome := .ok none
          nowStamp := "t" } =
      currentError ("Location error: " ++
        ("Location '" ++ "Nowhereville" ++ "' not found")) ∧
    ∀ m : String,
      ("Location error: " ++ ("Location '" ++ "Nowhereville" ++ "' not found")) ≠
        "Weather service error: " ++ m) :=
  ⟨⟨rfl, by decide⟩,
    c5_404_location_error "Nowhereville" "metric" false _ _ "k" "u" rfl
      (by decide) rfl⟩

/-- C6: when the forecast fetch succeeds but the artifact save raises, the
tool still returns the same overall-success dictionary it would return
without saving — identical `location`, `summary` and `data` — and the
failure appears only as the nested error dictionary under `artifact`. -/
theorem c6_artifact_failure_isolated (location units : String) (days : Int)
    (env : ForecastCallEnv) (store : Store) (k u : String)
    (body : ForecastRaw) (m : String)
    (hctx : env.tool_context = some ⟨some ⟨some ⟨store⟩⟩⟩)
    (hsvc : getState store "weather_service" =
      some (StateValue.serviceVal k u))
    (hdays : 1 ≤ days ∧ days ≤ 5)
    (hok : env.response = HttpOutcome.ok body)
    (hsave : env.saveOutcome = SaveOutcome.raised m) :
    ∃ l s d,
      get_weather_forecast location days units false env =
        { status := "success", message := none, location := some l
          summary := some s, data := some d, artifact := none } ∧
      get_weather_forecast location days units true env =
        { status := "success", message := none, location := some l
          summary := some s, data := some d
          artifact := some ⟨"error",
            some ("Failed to save artifact: " ++ m), none⟩ } := by
  refine ⟨(format_forecast_data body days.toNat).location,
    create_forecast_summary (format_forecast_data body days.toNat),
    format_forecast_data body days.toNat, ?_, ?_⟩ <;>
  · unfold get_weather_forecast
    rw [hctx]
    simp [hdays.1, hdays.2, hsvc, WeatherService.get_weather_forecast, hok,
      hsave, save_weather_artifact]

theorem c6_artifact_failure_isolated_witness :
    (({ tool_context :=
          some ⟨some ⟨some ⟨[("weather_service", StateValue.serviceVal "k" "u")]⟩⟩⟩
        response := HttpOutcome.ok ⟨"Paris", "FR", []⟩
        saveOutcome := SaveOutcome.raised "disk full", nowStamp := "t" } :
        ForecastCallEnv).tool_context =
        some ⟨some ⟨some ⟨[("weather_service", StateValue.serviceVal "k" "u")]⟩⟩⟩ ∧
      ((1 : Int) ≤ 3 ∧ (3 : Int) ≤ 5)) ∧
    ∃ l s d,
      get_weather_forecast "Paris" 3 "metric" false
          { tool_context :=
              some ⟨some ⟨some ⟨[("weather_service", StateValue.serviceVal "k" "u")]⟩⟩⟩
            response := HttpOutcome.ok ⟨"Paris", "FR", []⟩
            saveOutcome := SaveOutcome.raised "disk full", nowStamp := "t" } =
        { status := "success", message := none, location := some l
          summary := some s, data := some d, artifact := none } ∧
      get_weather_forecast "Paris" 3 "metric" true
          { tool_context :=
              some ⟨some ⟨some ⟨[("weather_service", StateValue.serviceVal "k" "u")]⟩⟩⟩
            response := HttpOutcome.ok ⟨"Paris", "FR", []⟩
            saveOutcome := SaveOutcome.raised "disk full", nowStamp := "t" } =
        { status := "success", message := none, location := some l
          summary := some s, data := some d
          artifact := some ⟨"error",
            some ("Failed to save artifact: " ++ "disk full"), none⟩ } :=
  ⟨⟨rfl, by decide⟩,
    c6_artifact_failure_isolated "Paris" "metric" 3 _ _ "k" "u"
      ⟨"Paris", "FR", []⟩ "disk full" rfl (by decide) (by decide) rfl rfl⟩

/-- C8: `WeatherService.close()` is idempotent, is a no-op when no session
was ever created, and always leaves the client closed or never-opened; as a
total function of the service state it raises nothing. -/
theorem c8_close_idempotent (st : WeatherServiceState) (k u : String) :
    WeatherService.close (WeatherService.close st) = WeatherService.close st ∧
    WeatherService.close ⟨k, u, none⟩ = ⟨k, u, none⟩ ∧
    ((WeatherService.close st).session = none ∨
      (WeatherService.close st).session = some ⟨true⟩) := by
  obtain ⟨a, b, s⟩ := st
  cases s with
  | none => exact ⟨rfl, rfl, Or.inl rfl⟩
  | some sess =>
    cases sess with
    | mk c =>
      cases c with
      | false => exact ⟨rfl, rfl, Or.inr rfl⟩
      | true => exact ⟨rfl, rfl, Or.inr rfl⟩

/-- C9 (implicit): the summary returned by the current-weather tool is
`_create_weather_summary` of the fetched record for every `units` argument,
and that summary labels both the temperature and the feels-like value with
the hard-coded "°C"; since `units` is universally quantified and absent
from the summary expression, the unit label does not depend on it. -/
theorem c9_celsius_label (location units : String) (save_to_file : Bool)
    (env : CurrentCallEnv) (store : Store) (k u : String) (body : CurrentRaw)
    (hctx : env.tool_context = some ⟨some ⟨some ⟨store⟩⟩⟩)
    (hsvc : getState store "weather_service" =
      some (StateValue.serviceVal k u))
    (hok : env.response = HttpOutcome.ok body) :
    (get_current_weather location units save_to_file env).summary =
      some (create_weather_summary (format_current_weather body)) ∧
    ∀ w : CurrentWeather, ∃ rest,
      create_weather_summary w =
        "Current weather in " ++ w.location ++ ":\n" ++
          "• Temperature: " ++ toString w.temperature ++ "°C" ++
          " (feels like " ++ toString w.feels_like ++ "°C" ++ ")\n" ++ rest := by
  constructor
  · unfold get_current_weather
    rw [hctx]
    cases hsv : save_to_file <;>
      simp [hsvc, WeatherService.get_current_weather, hok]
  · intro w
    refine ⟨"• Conditions: " ++ w.description ++ "\n" ++
      "• Humidity: " ++ toString w.humidity ++ "%\n" ++
      "• Wind: " ++ toString w.wind_speed ++ " m/s\n" ++
      "• Visibility: " ++ toString w.visibility ++ " km", ?_⟩
    simp only [create_weather_summary, String.append_assoc]

theorem c9_celsius_label_witness :
    (({ tool_context :=
          some ⟨some ⟨some ⟨[("weather_service", StateValue.serviceVal "k" "u")]⟩⟩⟩
        response := HttpOutcome.ok
          ⟨"London", "GB", 10, 9, 80, 1012, "light rain", some 4, some 90,
            some 10000, 1700000000, 1699990000, 1700020000⟩
        saveOutcome := .ok none, nowStamp := "t" } :
        CurrentCallEnv).tool_context =
        some ⟨some ⟨some ⟨[("weather_service", StateValue.serviceVal "k" "u")]⟩⟩⟩ ∧
      getState [("weather_service", StateValue.serviceVal "k" "u")]
        "weather_service" = some (StateValue.serviceVal "k" "u")) ∧
    ((get_current_weather "London" "imperial" false
        { tool_context :=
            some ⟨some ⟨some ⟨[("weather_service", StateValue.serviceVal "k" "u")]⟩⟩⟩
          response := HttpOutcome.ok
            ⟨"London", "GB", 10, 9, 80, 1012, "light rain", some 4, some 90,
              some 10000, 1700000000, 1699990000, 1700020000⟩
          saveOutcome := .ok none, nowStamp := "t" }).summary =
      some (create_weather_summary (format_current_weather
        ⟨"London", "GB", 10, 9, 80, 1012, "light rain", some 4, some 90,
          some 10000, 1700000000, 1699990000, 1700020000⟩)) ∧
    ∀ w : CurrentWeather, ∃ rest,
      create_weather_summary w =
        "Current weather in " ++ w.location ++ ":\n" ++
          "• Temperature: " ++ toString w.temperature ++ "°C" ++
          " (feels like " ++ toString w.feels_like ++ "°C" ++ ")\n" ++ rest) :=
  ⟨⟨rfl, by decide⟩,
    c9_celsius_label "London" "imperial" false _ _ "k" "u"
      ⟨"London", "GB", 10, 9, 80, 1012, "light rain", some 4, some 90,
        some 10000, 1700000000, 1699990000, 1700020000⟩ rfl (by decide) rfl⟩

theorem runToolCalls_store_invariant (calls : List ToolCall) :
    ∀ store : Store, runToolCalls store calls = store := by
  induction calls with
  | nil => intro store; rfl
  | cons c cs ih =>
    intro store
    have h1 : (runToolCall store c).1 = store := by cases c <;> rfl
    rw [runToolCalls, h1]
    exact ih store

/-- C10 (implicit): `initialize_weather_agent` sets
`weather_requests_count` to `0`, neither tool ever writes the agent state
(`tools.py` contains no `set_agent_specific_state` call, so the store is
threaded through unchanged), and the cleanup read therefore still yields
`0` after any sequence of served requests. -/
theorem c10_request_count_never_incremented (store : Store)
    (init_config : WeatherAgentInitConfig) (calls : List ToolCall) :
    getState (initialize_weather_agent store init_config)
      "weather_requests_count" = some (StateValue.natVal 0) ∧
    cleanup_request_count
      (runToolCalls (initialize_weather_agent store init_config) calls) =
      StateValue.natVal 0 := by
  have hget : getState (initialize_weather_agent store init_config)
      "weather_requests_count" = some (StateValue.natVal 0) := by
    simp [initialize_weather_agent, setState, getState]
  refine ⟨hget, ?_⟩
  rw [runToolCalls_store_invariant]
  simp [cleanup_request_count, hget]

/-- A concrete raw sample on day 0 (midnight). -/
def wsampleA : RawSample := ⟨0, 10, 50, "clear sky", none, none⟩

/-- A concrete raw sample on day 1 (`90000 / 86400 = 1`). -/
def wsampleB : RawSample := ⟨90000, 20, 60, "rain", some 5, some (1/2)⟩

theorem c1_daily_aggregation_witness :
    (([wsampleA, wsampleB] : List RawSample) ≠ [] ∧
      List.Pairwise (fun a b => a.dt ≤ b.dt) [wsampleA, wsampleB] ∧
      ∀ d : Nat, (List.map sdate [wsampleA, wsampleB]).count d ≤ 8) ∧
    ((format_forecast_data ⟨"London", "GB", [wsampleA, wsampleB]⟩ 5).forecasts.length =
        min ((List.map sdate [wsampleA, wsampleB]).dedup.length) 5 ∧
      ((format_forecast_data ⟨"London", "GB", [wsampleA, wsampleB]⟩ 5).forecasts.map
        DailyForecast.date).Pairwise (· < ·) ∧
      ∀ r ∈ (format_forecast_data ⟨"London", "GB", [wsampleA, wsampleB]⟩ 5).forecasts,
        ∃ run, run ≠ [] ∧ run <:+: [wsampleA, wsampleB] ∧
          (∀ y ∈ run, sdate y = r.date) ∧
          aggregate_daily_forecast run = some r) :=
  ⟨⟨by decide, by decide,
      fun d => le_trans (List.count_le_length d _) (by norm_num)⟩,
    c1_daily_aggregation ⟨"London", "GB", [wsampleA, wsampleB]⟩ 5 (by decide)
      (by decide) (fun d => le_trans (List.count_le_length d _) (by norm_num))⟩

/-- A concrete raw sample at hour 6 (noon distance 6). -/
def wsample6 : RawSample := ⟨21600, 8, 70, "mist", none, none⟩

/-- A concrete raw sample at hour 12 (noon distance 0). -/
def wsample12 : RawSample := ⟨43200, 15, 40, "clear sky", some 3, some 1⟩

/-- A concrete raw sample at hour 18 (noon distance 6). -/
def wsample18 : RawSample := ⟨64800, 11, 55, "light rain", some 4, some 0⟩

/-- The aggregated day for hours [6, 12, 18]: description, humidity, wind
and precipitation all come from the hour-12 sample. -/
def wdaily12 : DailyForecast := ⟨0, 8, 15, "Clear Sky", 40, 3, 100⟩

theorem c2_noon_representative_witness :
    (aggregate_daily_forecast [wsample6, wsample12, wsample18] =
      some wdaily12) ∧
    (∃ rep pre post,
      [wsample6, wsample12, wsample18] = pre ++ rep :: post ∧
      (∀ y ∈ pre, noonKey rep < noonKey y) ∧
      (∀ y ∈ [wsample6, wsample12, wsample18], noonKey rep ≤ noonKey y) ∧
      wdaily12.description = pyTitle rep.description ∧
      wdaily12.humidity = rep.humidity ∧
      wdaily12.wind_speed = rep.wind_speed.getD 0 ∧
      wdaily12.precipitation_probability = rep.pop.getD 0 * 100) ∧
    (aggregate_daily_forecast [⟨32400, 10, 33, "fog", none, none⟩,
        ⟨54000, 12, 77, "sun", none, none⟩]).map DailyForecast.humidity =
      some 33 :=
  by
  have hmin : pyMinBy noonKey wsample6 [wsample12, wsample18] = wsample12 := by
    decide
  have hdesc : pyTitle "clear sky" = "Clear Sky" := by decide
  have hagg : aggregate_daily_forecast [wsample6, wsample12, wsample18] =
      some wdaily12 := by
    rw [show aggregate_daily_forecast [wsample6, wsample12, wsample18] =
      some ⟨sdate wsample6,
        pyListMin wsample6.temp ([wsample12, wsample18].map RawSample.temp),
        pyListMax wsample6.temp ([wsample12, wsample18].map RawSample.temp),
        pyTitle (pyMinBy noonKey wsample6 [wsample12, wsample18]).description,
        (pyMinBy noonKey wsample6 [wsample12, wsample18]).humidity,
        (pyMinBy noonKey wsample6 [wsample12, wsample18]).wind_speed.getD 0,
        (pyMinBy noonKey wsample6 [wsample12, wsample18]).pop.getD 0 * 100⟩
      from rfl, hmin]
    simp only [wdaily12, wsample6, wsample12, wsample18, sdate, pyListMin,
      pyListMax, List.map_cons, List.map_nil, List.foldl_cons, List.foldl_nil,
      Option.getD_some, hdesc, Option.some.injEq, DailyForecast.mk.injEq]
    norm_num [min_def, max_def]
  exact ⟨hagg,
    c2_noon_representative wsample6 [wsample12, wsample18] wdaily12 hagg,
    by decide⟩
